import Mathlib

set_option maxRecDepth 100000

/-!
Verification development for a small Python repository containing two
static-file HTTP servers:

* `server.py` — serves files from the script's directory on port 8080 and
  injects a fixed set of CORS / Content-Security-Policy / X-Frame-Options
  headers on every response (subclass `MyHTTPRequestHandler` overriding
  `end_headers`);
* `simple-server.py` — identical except it uses the plain
  `http.server.SimpleHTTPRequestHandler`, injecting nothing.

The file-serving behaviour itself is delegated by both scripts to the Python
standard library's `SimpleHTTPRequestHandler`; we embed the observable part
of that behaviour (status, headers, body as a function of the filesystem and
request path) and the startup / shutdown control flow of each `main()` as an
event trace.
-/

/-- The fixed listening port, from `PORT = 8080` in both scripts. -/
def PORT : Nat := 8080

/-- The URL printed at startup and passed to `webbrowser.open`, from the
f-strings `http://localhost:{PORT}` in both scripts. -/
def serverURL : String := "http://localhost:" ++ toString PORT

/-- The Content-Security-Policy value built in
`MyHTTPRequestHandler.end_headers` (`server.py` lines 22-33); Python's
adjacent string literals concatenate, embedded here with `++`. -/
def csp_policy : String :=
  "default-src 'self'; " ++
  "script-src 'self' 'unsafe-inline' 'unsafe-eval' https://*.amazonaws.com https://*.awsapps.com https://*.my.connect.aws https://github.com https://connect-streams.s3.amazonaws.com https://cdn.jsdelivr.net; " ++
  "style-src 'self' 'unsafe-inline' https://*.amazonaws.com https://*.awsapps.com https://*.my.connect.aws; " ++
  "connect-src 'self' https: wss: https://*.amazonaws.com https://*.awsapps.com https://*.my.connect.aws; " ++
  "img-src 'self' data: https:; " ++
  "font-src 'self' https: data:; " ++
  "media-src 'self' https: data:; " ++
  "worker-src 'self' blob:; " ++
  "frame-src 'self' https://*.amazonaws.com https://*.awsapps.com https://*.my.connect.aws; " ++
  "child-src 'self' https://*.amazonaws.com https://*.awsapps.com https://*.my.connect.aws;"

/-- The five headers appended by `MyHTTPRequestHandler.end_headers`
(`server.py` lines 17-35), in source order. -/
def injectedHeaders : List (String × String) :=
  [ ("Access-Control-Allow-Origin", "*"),
    ("Access-Control-Allow-Methods", "GET, POST, OPTIONS"),
    ("Access-Control-Allow-Headers", "Content-Type"),
    ("Content-Security-Policy", csp_policy),
    ("X-Frame-Options", "SAMEORIGIN") ]

/-- The names of the five injected headers. -/
def injectedHeaderNames : List String := injectedHeaders.map Prod.fst

section CSPParsing

/-- Splits a character list on a separator character (each separator starts a
new chunk; used to tokenise the CSP policy string). -/
def splitCh (c : Char) : List Char → List (List Char)
  | [] => [[]]
  | x :: xs =>
    match splitCh c xs with
    | [] => [[]]
    | y :: ys => if x = c then [] :: y :: ys else (x :: y) :: ys

/-- The directives of `csp_policy`: split on `;`, trim leading spaces, drop
the empty trailing chunk, and split each directive into space-separated
tokens. -/
def cspDirectives : List (List (List Char)) :=
  (((splitCh ';' csp_policy.toList).map (fun l => l.dropWhile (· = ' '))).filter
      (· ≠ [])).map
    (fun d => (splitCh ' ' d).filter (· ≠ []))

/-- The directive names of `csp_policy`, in order of appearance. -/
def cspDirectiveNames : List (List Char) := cspDirectives.map (fun d => d.headD [])

/-- The source tokens of the directive named `n` in `csp_policy` (the tokens
after the directive name), or `[]` if there is no such directive. -/
def cspSources (n : List Char) : List (List Char) :=
  ((cspDirectives.filter (fun d => d.headD [] = n)).headD []).tail

/-- Whether `needle` occurs at the start of `hay`. -/
def isPrefOf : List Char → List Char → Bool
  | [], _ => true
  | _ :: _, [] => false
  | a :: as, b :: bs => a = b && isPrefOf as bs

/-- Whether `needle` occurs contiguously anywhere inside `hay`. -/
def containsSeq (needle : List Char) : List Char → Bool
  | [] => isPrefOf needle []
  | b :: bs => isPrefOf needle (b :: bs) || containsSeq needle bs

end CSPParsing

section FileServing

/-- A filesystem entry as seen by the file server: a regular file with its
byte contents, or a directory with the names it lists. -/
inductive Entry : Type
  | file (body : List Nat)
  | directory (names : List String)
deriving DecidableEq

/-- The served filesystem: request paths (already resolved under the served
root) mapped to entries; `none` means the path resolves to nothing. -/
structure FS : Type where
  lookup : String → Option Entry

/-- The body bytes of an ASCII string, one byte per character (the
character's codepoint), as the body bytes a response carries. -/
def strBytes (s : String) : List Nat := s.toList.map (fun c => c.toNat)

/-- Modelled from the spec: the content type is "derived from file
extension"; the table mirrors representative entries of the platform
mimetypes mapping consulted by the standard library handler, with the
handler's `application/octet-stream` fallback. -/
def extensionsMap : List (String × String) :=
  [ (".html", "text/html"), (".htm", "text/html"),
    (".js", "text/javascript"), (".mjs", "text/javascript"),
    (".css", "text/css"), (".json", "application/json"),
    (".png", "image/png"), (".jpg", "image/jpeg"), (".jpeg", "image/jpeg"),
    (".gif", "image/gif"), (".svg", "image/svg+xml"),
    (".txt", "text/plain"), (".pdf", "application/pdf"),
    (".gz", "application/gzip"), (".xml", "text/xml") ]

/-- The lowercased extension of a path (final dot-suffix of the final path
component, empty when the final component has no dot-suffix), as
`posixpath.splitext` computes it for the standard handler's `guess_type`. -/
def fileExt (p : String) : String :=
  let base := (splitCh '/' p.toList).getLastD []
  let parts := splitCh '.' base
  if parts.length ≤ 1 then ""
  else String.mk ('.' :: (parts.getLastD []).map Char.toLower)

/-- Modelled from the spec: the standard handler's `guess_type` — look the
lowercased extension up in the table, defaulting to
`application/octet-stream`. -/
def guessType (p : String) : String :=
  ((extensionsMap.filter (fun e => e.fst = fileExt p)).headD
    ("", "application/octet-stream")).snd

/-- An HTTP response as observed by a client: status code, the (name, value)
header pairs in the order they are emitted, and the body bytes. -/
structure Response : Type where
  status : Nat
  headers : List (String × String)
  body : List Nat
deriving DecidableEq

/-- The standard error page body sent by `send_error` for a 404. -/
def errorPage404 : List Nat :=
  strBytes "<html><head><title>Error response</title></head><body><h1>Error response</h1><p>Error code: 404</p><p>Message: File not found.</p></body></html>"

/-- The generated directory-listing page body for a directory entry. -/
def listingPage (names : List String) : List Nat :=
  strBytes ("<html><body><ul>" ++
    String.join (names.map (fun n => "<li>" ++ n ++ "</li>")) ++
    "</ul></body></html>")

/-- Modelled from the spec: the observable behaviour of the standard library
`SimpleHTTPRequestHandler` on a GET, which both scripts delegate file serving
to — an existing regular file yields 200 with the file's bytes, a
content-type derived from the extension and a content-length; a directory
yields a 301 redirect to the slash-terminated path or a generated listing;
an unresolved path yields the 404 error response. -/
def baseResponse (fs : FS) (p : String) : Response :=
  match fs.lookup p with
  | some (Entry.file body) =>
      { status := 200,
        headers := [("Content-type", guessType p),
                    ("Content-Length", toString body.length)],
        body := body }
  | some (Entry.directory names) =>
      if p.endsWith "/" then
        { status := 200,
          headers := [("Content-type", "text/html; charset=utf-8"),
                      ("Content-Length", toString (listingPage names).length)],
          body := listingPage names }
      else
        { status := 301,
          headers := [("Location", p ++ "/"), ("Content-Length", "0")],
          body := [] }
  | none =>
      { status := 404,
        headers := [("Content-Type", "text/html;charset=utf-8"),
                    ("Content-Length", toString errorPage404.length)],
        body := errorPage404 }

/-- The response of the header-injecting variant (`server.py`): the base
handler builds the response, and the overridden `end_headers` appends the
five extra headers to the buffered header block before it is flushed, on
every response. -/
def serverRespond (fs : FS) (p : String) : Response :=
  let b := baseResponse fs p
  { b with headers := b.headers ++ injectedHeaders }

/-- The response of the non-injecting variant (`simple-server.py`), which
uses the plain `http.server.SimpleHTTPRequestHandler` unchanged. -/
def simpleRespond (fs : FS) (p : String) : Response :=
  baseResponse fs p

/-- The serve loop handling a sequence of requests: each request is handled
independently and produces a response; no request outcome terminates the
loop. -/
def handleRequests (fs : FS) (reqs : List String) : List Response :=
  reqs.map (serverRespond fs)

end FileServing

section ProcessTrace

/-- Observable process-level events of a `main()` run, in order. -/
inductive Event : Type
  | chdir (dir : String)
  | bindAttempt (host : String) (port : Nat)
  | listenerBound (host : String) (port : Nat)
  | printLine (s : String)
  | openBrowser (url : String)
  | serveLoop
  | closeListener
  | exitProcess (code : Nat)
deriving DecidableEq

/-- The event trace of `server.py`'s `main()` given the script directory and
whether binding port 8080 succeeds: `os.chdir` first, then the
`socketserver.TCPServer(("", PORT), ...)` construction attempts the bind —
on failure the OSError propagates uncaught and the interpreter exits with
code 1 having created no listener; on success the status lines are printed,
the browser opened, `serve_forever` blocks until `KeyboardInterrupt`, the
stop message prints, the `with` block closes the listener, and the process
exits 0. -/
def serverMain (dir : String) (bindOk : Bool) : List Event :=
  Event.chdir dir ::
  Event.bindAttempt "" PORT ::
  if bindOk then
    [ Event.listenerBound "" PORT,
      Event.printLine "🚀 Amazon Connect AI Assistant Server",
      Event.printLine ("📡 Serving at " ++ serverURL),
      Event.printLine "🌐 Opening browser...",
      Event.openBrowser serverURL,
      Event.printLine "🛑 Press Ctrl+C to stop the server",
      Event.serveLoop,
      Event.printLine "\n🛑 Server stopped",
      Event.closeListener,
      Event.exitProcess 0 ]
  else
    [ Event.exitProcess 1 ]

/-- The event trace of `simple-server.py`'s `main()`; identical control flow
to `serverMain`, differing only in its banner line. -/
def simpleMain (dir : String) (bindOk : Bool) : List Event :=
  Event.chdir dir ::
  Event.bindAttempt "" PORT ::
  if bindOk then
    [ Event.listenerBound "" PORT,
      Event.printLine "🚀 Amazon Connect AI Assistant - Simple Server",
      Event.printLine ("📡 Serving at " ++ serverURL),
      Event.printLine "🌐 Opening browser...",
      Event.openBrowser serverURL,
      Event.printLine "🛑 Press Ctrl+C to stop the server",
      Event.serveLoop,
      Event.printLine "\n🛑 Server stopped",
      Event.closeListener,
      Event.exitProcess 0 ]
  else
    [ Event.exitProcess 1 ]

/-- The exit code reported by a trace (the first `exitProcess` event). -/
def exitCode (t : List Event) : Option Nat :=
  t.findSome? fun e => match e with | Event.exitProcess c => some c | _ => none

/-- How many times a trace opens the browser. -/
def countOpens (t : List Event) : Nat :=
  t.countP fun e => match e with | Event.openBrowser _ => true | _ => false

/-- How many times a trace attempts to bind a listener. -/
def countBindAttempts (t : List Event) : Nat :=
  t.countP fun e => match e with | Event.bindAttempt _ _ => true | _ => false

/-- How many listeners a trace actually creates. -/
def countListeners (t : List Event) : Nat :=
  t.countP fun e => match e with | Event.listenerBound _ _ => true | _ => false

/-- Recognisers for the event kinds, used to locate them in a trace. -/
def isChdir : Event → Bool
  | Event.chdir _ => true
  | _ => false

def isListenerBound : Event → Bool
  | Event.listenerBound _ _ => true
  | _ => false

def isPrintLine : Event → Bool
  | Event.printLine _ => true
  | _ => false

def isOpenBrowser : Event → Bool
  | Event.openBrowser _ => true
  | _ => false

def isServeLoop : Event → Bool
  | Event.serveLoop => true
  | _ => false

def isExit : Event → Bool
  | Event.exitProcess _ => true
  | _ => false

/-- The host of the first listener-bound event of a trace, if any. -/
def boundHost (t : List Event) : Option String :=
  t.findSome? fun e => match e with | Event.listenerBound h _ => some h | _ => none

/-- The port of the first listener-bound event of a trace, if any. -/
def boundPort (t : List Event) : Option Nat :=
  t.findSome? fun e => match e with | Event.listenerBound _ q => some q | _ => none

end ProcessTrace

lemma serverRespond_headers (fs : FS) (p : String) :
    (serverRespond fs p).headers = (baseResponse fs p).headers ++ injectedHeaders :=
  rfl

/-- C1: in the header-injecting variant (`server.py`), every response — for
every filesystem, request path, and hence every status code (200, 404, 301)
— carries the five injected headers with byte-identical values:
`Access-Control-Allow-Origin: *`, `Access-Control-Allow-Methods: GET, POST,
OPTIONS`, `Access-Control-Allow-Headers: Content-Type`, the fixed
Content-Security-Policy string, and `X-Frame-Options: SAMEORIGIN`. -/
theorem c1_injected_headers_every_response (fs : FS) (p : String) :
    ("Access-Control-Allow-Origin", "*") ∈ (serverRespond fs p).headers ∧
    ("Access-Control-Allow-Methods", "GET, POST, OPTIONS") ∈ (serverRespond fs p).headers ∧
    ("Access-Control-Allow-Headers", "Content-Type") ∈ (serverRespond fs p).headers ∧
    ("Content-Security-Policy", csp_policy) ∈ (serverRespond fs p).headers ∧
    ("X-Frame-Options", "SAMEORIGIN") ∈ (serverRespond fs p).headers := by
  refine ⟨?_, ?_, ?_, ?_, ?_⟩ <;>
    · rw [serverRespond_headers]
      exact List.mem_append_right _ (by simp [injectedHeaders])

/-- C3: in the non-injecting variant (`simple-server.py`), no response — for
any filesystem, request path, or status code — carries a header named after
any of the five injected headers. -/
theorem c3_no_injected_headers_simple (fs : FS) (p : String) :
    ((simpleRespond fs p).headers.map Prod.fst).all
      (fun n => !(injectedHeaderNames.contains n)) = true := by
  unfold simpleRespond baseResponse
  rcases hfs : fs.lookup p with _ | e
  · simp only [hfs]
    decide
  · rcases e with body | names
    · simp only [hfs]
      simp [injectedHeaderNames, injectedHeaders]
    · simp only [hfs]
      cases hp : p.endsWith "/" <;>
        simp [hp, injectedHeaderNames, injectedHeaders]

/-- C2 counterexample: contrary to the claim that `'unsafe-eval'` is
additionally allowed for styles, the `style-src` directive of the injected
`csp_policy` does not contain the `'unsafe-eval'` source token (`server.py`
line 25 lists only `'self' 'unsafe-inline'` plus the AWS origins). -/
theorem c2_style_src_lacks_eval_token :
    ¬ ("'unsafe-eval'".toList ∈ cspSources "style-src".toList) := by decide

/-- C2 amended: the injected Content-Security-Policy is a single-line policy
whose directives are exactly the ten `default-src`, `script-src`,
`style-src`, `connect-src`, `img-src`, `font-src`, `media-src`,
`worker-src`, `frame-src`, `child-src` in that order; every directive's
first source token is `'self'`; `'unsafe-inline'` and `'unsafe-eval'` are
additionally allowed for scripts, and `'unsafe-inline'` (but not
`'unsafe-eval'`) for styles; and the policy string contains the substring
`frame-src 'self'`. -/
theorem c2_csp_policy_structure :
    cspDirectiveNames =
      [ "default-src".toList, "script-src".toList, "style-src".toList,
        "connect-src".toList, "img-src".toList, "font-src".toList,
        "media-src".toList, "worker-src".toList, "frame-src".toList,
        "child-src".toList ] ∧
    (cspDirectives.all fun d => d.tail.headD [] = "'self'".toList) = true ∧
    "'unsafe-inline'".toList ∈ cspSources "script-src".toList ∧
    "'unsafe-eval'".toList ∈ cspSources "script-src".toList ∧
    "'unsafe-inline'".toList ∈ cspSources "style-src".toList ∧
    "'unsafe-eval'".toList ∉ cspSources "style-src".toList ∧
    containsSeq "frame-src 'self'".toList csp_policy.toList = true := by
  refine ⟨by decide, by decide, by decide, by decide, by decide, by decide, by decide⟩

/-- C4: a GET on any request path that resolves to an existing regular file
returns status 200, a body byte-identical to the file's contents, a
content-type derived from the file extension, and a content-length header —
in both variants. -/
theorem c4_existing_file_served (fs : FS) (p : String) (body : List Nat)
    (h : fs.lookup p = some (Entry.file body)) :
    (serverRespond fs p).status = 200 ∧
    (serverRespond fs p).body = body ∧
    ("Content-type", guessType p) ∈ (serverRespond fs p).headers ∧
    ("Content-Length", toString body.length) ∈ (serverRespond fs p).headers ∧
    (simpleRespond fs p).status = 200 ∧
    (simpleRespond fs p).body = body ∧
    ("Content-type", guessType p) ∈ (simpleRespond fs p).headers ∧
    ("Content-Length", toString body.length) ∈ (simpleRespond fs p).headers := by
  unfold serverRespond simpleRespond baseResponse
  simp [h, injectedHeaders]

/-- A concrete one-file filesystem: the served root holds only
`/index.html`. -/
def fsIndex : FS :=
  ⟨fun p => if p = "/index.html" then some (Entry.file (strBytes "<html>hi</html>")) else none⟩

/-- Witness for C4 at the concrete filesystem `fsIndex` and path
`/index.html` (the spec's end-to-end scenario: the file is served with
status 200 and content-type `text/html`). -/
theorem c4_existing_file_served_witness :
    ((serverRespond fsIndex "/index.html").status = 200 ∧
      (serverRespond fsIndex "/index.html").body = strBytes "<html>hi</html>" ∧
      ("Content-type", guessType "/index.html") ∈ (serverRespond fsIndex "/index.html").headers ∧
      ("Content-Length", toString (strBytes "<html>hi</html>").length) ∈ (serverRespond fsIndex "/index.html").headers ∧
      (simpleRespond fsIndex "/index.html").status = 200 ∧
      (simpleRespond fsIndex "/index.html").body = strBytes "<html>hi</html>" ∧
      ("Content-type", guessType "/index.html") ∈ (simpleRespond fsIndex "/index.html").headers ∧
      ("Content-Length", toString (strBytes "<html>hi</html>").length) ∈ (simpleRespond fsIndex "/index.html").headers) ∧
    guessType "/index.html" = "text/html" :=
  ⟨c4_existing_file_served fsIndex "/index.html" (strBytes "<html>hi</html>") (by decide),
   by decide⟩

/-- C5: a GET on any request path that resolves to no file or directory
returns status 404 in both variants, and the failure is handled per request:
the serve loop answers every request of any request sequence with a
response, so no single request's failure is fatal to the process. -/
theorem c5_unresolved_path_404 (fs : FS) (p : String)
    (h : fs.lookup p = none) :
    (serverRespond fs p).status = 404 ∧
    (simpleRespond fs p).status = 404 ∧
    ∀ reqs : List String, (handleRequests fs reqs).length = reqs.length := by
  refine ⟨?_, ?_, ?_⟩
  · unfold serverRespond baseResponse
    simp [h]
  · unfold simpleRespond baseResponse
    simp [h]
  · intro reqs
    unfold handleRequests
    exact reqs.length_map _

/-- Witness for C5 at the concrete filesystem `fsIndex` and the unresolved
path `/does-not-exist.js` (the spec's end-to-end scenario), with a concrete
two-request sequence both of whose requests are answered. -/
theorem c5_unresolved_path_404_witness :
    (serverRespond fsIndex "/does-not-exist.js").status = 404 ∧
    (simpleRespond fsIndex "/does-not-exist.js").status = 404 ∧
    (handleRequests fsIndex ["/does-not-exist.js", "/index.html"]).length = 2 :=
  ⟨(c5_unresolved_path_404 fsIndex "/does-not-exist.js" (by decide)).1,
   (c5_unresolved_path_404 fsIndex "/does-not-exist.js" (by decide)).2.1,
   (c5_unresolved_path_404 fsIndex "/does-not-exist.js" (by decide)).2.2
     ["/does-not-exist.js", "/index.html"]⟩

/-- C6: when binding port 8080 fails, both variants terminate at once with
exit code 1 (non-zero): the trace is exactly chdir, the single failed bind
attempt at port 8080, and the exit — no listener is created, and no retry or
fallback port selection is attempted (exactly one bind attempt, at the fixed
port). -/
theorem c6_bind_failure_fatal (dir : String) :
    serverMain dir false =
      [Event.chdir dir, Event.bindAttempt "" 8080, Event.exitProcess 1] ∧
    exitCode (serverMain dir false) = some 1 ∧
    exitCode (serverMain dir false) ≠ some 0 ∧
    countListeners (serverMain dir false) = 0 ∧
    countBindAttempts (serverMain dir false) = 1 ∧
    simpleMain dir false =
      [Event.chdir dir, Event.bindAttempt "" 8080, Event.exitProcess 1] ∧
    exitCode (simpleMain dir false) = some 1 ∧
    exitCode (simpleMain dir false) ≠ some 0 ∧
    countListeners (simpleMain dir false) = 0 ∧
    countBindAttempts (simpleMain dir false) = 1 := by
  refine ⟨rfl, rfl, ?_, rfl, rfl, rfl, rfl, ?_, rfl, rfl⟩ <;>
    · intro h
      simp [exitCode, serverMain, simpleMain, PORT] at h

/-- C7: after a successful startup, the interrupt is treated as a successful
shutdown in both variants: the serve loop is followed (in this order) by the
printed stop message, the closing of the listener, and process exit, and the
exit code is 0. -/
theorem c7_interrupt_clean_shutdown (dir : String) :
    exitCode (serverMain dir true) = some 0 ∧
    (serverMain dir true).findIdx? isServeLoop = some 8 ∧
    (serverMain dir true).findIdx?
      (fun e => e = Event.printLine "\n🛑 Server stopped") = some 9 ∧
    (serverMain dir true).findIdx? (fun e => e = Event.closeListener) = some 10 ∧
    (serverMain dir true).findIdx? isExit = some 11 ∧
    exitCode (simpleMain dir true) = some 0 ∧
    (simpleMain dir true).findIdx? isServeLoop = some 8 ∧
    (simpleMain dir true).findIdx?
      (fun e => e = Event.printLine "\n🛑 Server stopped") = some 9 ∧
    (simpleMain dir true).findIdx? (fun e => e = Event.closeListener) = some 10 ∧
    (simpleMain dir true).findIdx? isExit = some 11 :=
  ⟨rfl, rfl, rfl, rfl, rfl, rfl, rfl, rfl, rfl, rfl⟩

/-- C8: at process start the steps occur in order in both variants: the
chdir to the script's directory is the first event (index 0), the listener
is bound on port 8080 next (index 2, right after the bind attempt), the
first operator-facing status line is printed at index 3, the browser is
opened at `http://localhost:8080` at index 6, and the blocking serve loop
begins at index 8. -/
theorem c8_startup_order (dir : String) :
    (serverMain dir true).headD Event.serveLoop = Event.chdir dir ∧
    (serverMain dir true).findIdx? isChdir = some 0 ∧
    (serverMain dir true).findIdx? isListenerBound = some 2 ∧
    boundPort (serverMain dir true) = some 8080 ∧
    (serverMain dir true).findIdx? isPrintLine = some 3 ∧
    (serverMain dir true).findIdx? isOpenBrowser = some 6 ∧
    (serverMain dir true).findIdx? (fun e => e = Event.openBrowser "http://localhost:8080") = some 6 ∧
    (serverMain dir true).findIdx? isServeLoop = some 8 ∧
    (simpleMain dir true).headD Event.serveLoop = Event.chdir dir ∧
    (simpleMain dir true).findIdx? isChdir = some 0 ∧
    (simpleMain dir true).findIdx? isListenerBound = some 2 ∧
    boundPort (simpleMain dir true) = some 8080 ∧
    (simpleMain dir true).findIdx? isPrintLine = some 3 ∧
    (simpleMain dir true).findIdx? isOpenBrowser = some 6 ∧
    (simpleMain dir true).findIdx? (fun e => e = Event.openBrowser "http://localhost:8080") = some 6 ∧
    (simpleMain dir true).findIdx? isServeLoop = some 8 :=
  ⟨rfl, rfl, rfl, rfl, rfl, rfl, rfl, rfl, rfl, rfl, rfl, rfl, rfl, rfl, rfl, rfl⟩

/-- C9: both variants bind the listener with the empty host string (all
interfaces), which differs from `localhost`, while the printed status line
and the browser URL mention only `http://localhost:8080`. -/
theorem c9_binds_all_interfaces (dir : String) :
    boundHost (serverMain dir true) = some "" ∧
    boundPort (serverMain dir true) = some 8080 ∧
    boundHost (simpleMain dir true) = some "" ∧
    boundPort (simpleMain dir true) = some 8080 ∧
    ("" : String) ≠ "localhost" ∧
    (serverMain dir true).findIdx?
      (fun e => e = Event.openBrowser "http://localhost:8080") = some 6 ∧
    (serverMain dir true).findIdx?
      (fun e => e = Event.printLine "📡 Serving at http://localhost:8080") = some 4 ∧
    (simpleMain dir true).findIdx?
      (fun e => e = Event.openBrowser "http://localhost:8080") = some 6 ∧
    (simpleMain dir true).findIdx?
      (fun e => e = Event.printLine "📡 Serving at http://localhost:8080") = some 4 :=
  ⟨rfl, rfl, rfl, rfl, by decide, rfl, rfl, rfl, rfl⟩

/-- C10: in both variants the browser is opened exactly once on a successful
run and never on a bind failure, and only after the listener is bound (the
listener-bound event is at index 2, before the browser-open event at index
6); on bind failure no status line is printed and no serve loop is entered,
while the working-directory change still occurs as the first event. -/
theorem c10_browser_once_after_bind (dir : String) :
    countOpens (serverMain dir true) = 1 ∧
    countOpens (serverMain dir false) = 0 ∧
    countOpens (simpleMain dir true) = 1 ∧
    countOpens (simpleMain dir false) = 0 ∧
    (serverMain dir true).findIdx? isListenerBound = some 2 ∧
    (serverMain dir true).findIdx? isOpenBrowser = some 6 ∧
    (simpleMain dir true).findIdx? isListenerBound = some 2 ∧
    (simpleMain dir true).findIdx? isOpenBrowser = some 6 ∧
    (serverMain dir false).findIdx? isOpenBrowser = none ∧
    (simpleMain dir false).findIdx? isOpenBrowser = none ∧
    (serverMain dir false).findIdx? isPrintLine = none ∧
    (simpleMain dir false).findIdx? isPrintLine = none ∧
    (serverMain dir false).findIdx? isServeLoop = none ∧
    (simpleMain dir false).findIdx? isServeLoop = none ∧
    (serverMain dir false).headD Event.serveLoop = Event.chdir dir ∧
    (simpleMain dir false).headD Event.serveLoop = Event.chdir dir :=
  ⟨rfl, rfl, rfl, rfl, rfl, rfl, rfl, rfl, rfl, rfl, rfl, rfl, rfl, rfl, rfl, rfl⟩
